import Mathlib

/-!
Verification of the movie-catalog CRUD service (FastAPI homework repository).

The definitions below are a shallow embedding of the repository's code:
 - `database/models.py` : the ORM tables (movies, genres, actors, languages,
   countries, and the three junction tables) and the storage status enum;
 - `schemas/movies.py`  : the pydantic schemas (`MovieStatus`, `MovieCreate`,
   `MovieUpdate`, response shapes);
 - `routes/movies.py`   : the request handlers `list_movies`, `get_movie`,
   `create_movie` (with its inner `get_or_create`), `update_movie`,
   `delete_movie`;
 - `main.py`            : the mount point of the router.

Machine conventions: dates are integer day numbers (Python `date` ordered by
day; `timedelta(days=365)` becomes `+ 365`), SQL float/decimal columns are
modelled as `ℚ`, autoincrement primary keys as an explicit `nextId` counter
per table, and a handler's `HTTPException` as the `Except.error` branch of
its result.
-/

namespace Theater

/-- Storage status enum `MovieStatusEnum` from `database/models.py`.
Note the member values as written in the source: `POST_PRODUCTION` carries
the string value "Post PRODUCTION". -/
inductive MovieStatusEnum
  | RELEASED
  | POST_PRODUCTION
  | IN_PRODUCTION
deriving DecidableEq, Repr

/-- The string value of each `MovieStatusEnum` member, exactly as in
`database/models.py`. -/
def MovieStatusEnum.value : MovieStatusEnum → String
  | .RELEASED => "Released"
  | .POST_PRODUCTION => "Post PRODUCTION"
  | .IN_PRODUCTION => "In Production"

/-- The set (as a list) of status strings representable in storage. -/
def MovieStatusEnum.values : List String :=
  [MovieStatusEnum.RELEASED.value, MovieStatusEnum.POST_PRODUCTION.value,
   MovieStatusEnum.IN_PRODUCTION.value]

/-- Value-based lookup into `MovieStatusEnum`, as SQLAlchemy performs when a
plain string (or a str-enum from another enum class) is bound to the column:
an unknown value is a `LookupError`. -/
def MovieStatusEnum.ofValue (s : String) : Option MovieStatusEnum :=
  if s = "Released" then some .RELEASED
  else if s = "Post PRODUCTION" then some .POST_PRODUCTION
  else if s = "In Production" then some .IN_PRODUCTION
  else none

/-- API-schema status enum `MovieStatus` from `schemas/movies.py`. -/
inductive MovieStatus
  | released
  | post_production
  | in_production
deriving DecidableEq, Repr

/-- The string value of each `MovieStatus` member, exactly as in
`schemas/movies.py`. -/
def MovieStatus.value : MovieStatus → String
  | .released => "Released"
  | .post_production => "Post Production"
  | .in_production => "In Production"

/-- The set (as a list) of status strings accepted at the API interface. -/
def MovieStatus.values : List String :=
  [MovieStatus.released.value, MovieStatus.post_production.value,
   MovieStatus.in_production.value]

/-- Parsing a request status string into the schema enum (pydantic
validation of the `status` field). -/
def MovieStatus.ofValue (s : String) : Option MovieStatus :=
  if s = "Released" then some .released
  else if s = "Post Production" then some .post_production
  else if s = "In Production" then some .in_production
  else none

/-- A row of `genres` / `actors` / `languages`: surrogate id plus a unique
`name` natural key (`GenreModel`, `ActorModel`, `LanguageModel` are
structurally identical). -/
structure TagRow where
  id_ : Nat
  name : String
deriving DecidableEq, Repr

/-- A tag table with its autoincrement counter. -/
structure TagTable where
  rows : List TagRow
  nextId : Nat
deriving DecidableEq, Repr

/-- A row of `countries` (`CountryModel`): id, unique `code`, optional
display name. -/
structure CountryRow where
  id_ : Nat
  code : String
  name : Option String
deriving DecidableEq, Repr

/-- The countries table with its autoincrement counter. -/
structure CountryTable where
  rows : List CountryRow
  nextId : Nat
deriving DecidableEq, Repr

/-- A row of `movies` (`MovieModel`): scalar columns plus the `country_id`
foreign key.  Associations to genres/actors/languages live in the junction
tables. -/
structure MovieRow where
  id_ : Nat
  name : String
  date : Int
  score : Option ℚ
  overview : Option String
  status : MovieStatusEnum
  budget : Option ℚ
  revenue : Option ℚ
  country_id : Option Nat
deriving DecidableEq, Repr

/-- The movies table with its autoincrement counter. -/
structure MovieTable where
  rows : List MovieRow
  nextId : Nat
deriving DecidableEq, Repr

/-- A row of the `movies_genres` junction table (`MoviesGenresModel`). -/
structure MovieGenreRow where
  movie_id : Nat
  genre_id : Nat
deriving DecidableEq, Repr

/-- A row of the `actors_movies` junction table (`ActorsMoviesModel`). -/
structure ActorMovieRow where
  movie_id : Nat
  actor_id : Nat
deriving DecidableEq, Repr

/-- A row of the `movies_languages` junction table
(`MoviesLanguagesModel`). -/
structure MovieLanguageRow where
  movie_id : Nat
  language_id : Nat
deriving DecidableEq, Repr

/-- The whole relational state visible to the handlers. -/
structure DB where
  movies : MovieTable
  genres : TagTable
  actors : TagTable
  languages : TagTable
  countries : CountryTable
  movies_genres : List MovieGenreRow
  actors_movies : List ActorMovieRow
  movies_languages : List MovieLanguageRow
deriving DecidableEq, Repr

/-- An `HTTPException`: status code and detail string. -/
structure HErr where
  status_code : Nat
  detail : String
deriving DecidableEq, Repr

/-- A pydantic validation failure on one field. -/
inductive ValErr
  | missing (field : String)
  | invalid (field : String) (msg : String)
deriving DecidableEq, Repr

/-- The `MovieShort` listing item from `schemas/movies.py`: fields `id`
(validation alias `id_`), `name`, `release_date` (validation alias `date`),
`score`, `overview`; `from_attributes` is set, `populate_by_name` is not. -/
structure MovieShort where
  id : Nat
  name : String
  release_date : Int
  score : Option ℚ
  overview : Option String
deriving DecidableEq, Repr

/-- The `MovieFull` response schema from `schemas/movies.py` (`MovieBase`
plus `id`, `country`, `genres`, `actors`, `languages`).  Its instances
carry attributes named by these declared fields — `id` and `release_date`,
not the ORM names `id_` and `date`. -/
structure MovieFull where
  id : Nat
  name : String
  release_date : Int
  status : MovieStatus
  score : Option ℚ
  overview : Option String
  budget : Option ℚ
  revenue : Option ℚ
  country : Option CountryRow
  genres : List TagRow
  actors : List TagRow
  languages : List TagRow
deriving DecidableEq, Repr

/-- The `MoviesListResponse` shape from `schemas/movies.py`. -/
structure MoviesListResponse where
  movies : List MovieShort
  prev_page : Option String
  next_page : Option String
  total_pages : Nat
  total_items : Nat
deriving DecidableEq, Repr

/-- `total_pages = (total_items + per_page - 1) // per_page if total_items > 0
else 0`, from `list_movies` in `routes/movies.py`. -/
def total_pages_of (total_items per_page : Nat) : Nat :=
  if total_items > 0 then (total_items + per_page - 1) / per_page else 0

/-- Insert a movie row into a list sorted by descending id. -/
def insertDescById (m : MovieRow) : List MovieRow → List MovieRow
  | [] => [m]
  | x :: xs => if x.id_ ≤ m.id_ then m :: x :: xs else x :: insertDescById m xs

/-- `order_by(MovieModel.id.desc())`: the movie rows sorted by descending
id. -/
def sortByIdDesc (l : List MovieRow) : List MovieRow :=
  l.foldr insertDescById []

/-- The literal link base used by `list_movies` in `routes/movies.py`:
`base_url = "/theater/movies/"`. -/
def base_url : String := "/theater/movies/"

/-- `api_version_prefix = "/api/v1"` and
`app.include_router(movie_router, prefix=f"..{api_version_prefix}/theater")`
with the router's own `/movies` segment: the path under which the listing
endpoint is actually served (`main.py` and the `APIRouter` declaration). -/
def mounted_listing_path : String := "/api/v1" ++ "/theater" ++ "/movies" ++ "/"

/-- `MovieFull.model_validate(m, from_attributes=True)` on an ORM movie row
whose relations were eager-loaded (`joinedload(country)`,
`selectinload(genres/actors/languages)`): every aliased lookup matches an
ORM attribute (`id_` for `id`, `date` for `release_date`), and the stored
status value is re-validated against the schema enum `MovieStatus` — the
storage value "Post PRODUCTION" is not a schema value, so rows carrying it
already fail at this step. -/
def MovieFull.ofRow (db : DB) (m : MovieRow) : Except ValErr MovieFull := do
  let st ← match MovieStatus.ofValue m.status.value with
    | some st => pure st
    | none =>
        throw (ValErr.invalid "status" "Input should be a valid enumeration member")
  pure { id := m.id_, name := m.name, release_date := m.date, status := st,
         score := m.score, overview := m.overview, budget := m.budget,
         revenue := m.revenue,
         country := m.country_id.bind
           (fun cid => db.countries.rows.find? (fun c => decide (c.id_ = cid))),
         genres := (db.movies_genres.filter
             (fun j => decide (j.movie_id = m.id_))).filterMap
           (fun j => db.genres.rows.find? (fun r => decide (r.id_ = j.genre_id))),
         actors := (db.actors_movies.filter
             (fun j => decide (j.movie_id = m.id_))).filterMap
           (fun j => db.actors.rows.find? (fun r => decide (r.id_ = j.actor_id))),
         languages := (db.movies_languages.filter
             (fun j => decide (j.movie_id = m.id_))).filterMap
           (fun j => db.languages.rows.find?
             (fun r => decide (r.id_ = j.language_id))) }

/-- Python attribute read of a `Nat`-valued (`int`) attribute on a
`MovieFull` instance: `id` is the only such field declared; any other name
is absent, which pydantic extraction reports as a missing field. -/
def MovieFull.getIdAttr (m : MovieFull) (attr : String) : Except ValErr Nat :=
  if attr = "id" then .ok m.id else .error (.missing attr)

/-- Python attribute read of the date-valued attribute on a `MovieFull`
instance: the declared field is `release_date`; any other name is absent. -/
def MovieFull.getDateAttr (m : MovieFull) (attr : String) : Except ValErr Int :=
  if attr = "release_date" then .ok m.release_date else .error (.missing attr)

/-- `MovieShort` validation of a `MovieFull` instance, as triggered by
`MoviesListResponse(movies=movies_data, ...)`: with `from_attributes`, each
`MovieShort` field reads the source attribute named by its validation alias
when one is declared (`id_` for `id`, `date` for `release_date`;
`populate_by_name` is unset, so the field name itself is not tried), and by
its plain name otherwise (`name`, `score`, `overview`, which a `MovieFull`
does carry).  The first missing required attribute fails the validation. -/
def MovieShort.ofMovieFull (m : MovieFull) : Except ValErr MovieShort := do
  let idv ← m.getIdAttr "id_"
  let rdv ← m.getDateAttr "date"
  pure { id := idv, name := m.name, release_date := rdv, score := m.score,
         overview := m.overview }

/-- Left-to-right effectful map over `Except`, stopping at the first
failure (how pydantic validates a list field item by item). -/
def traverseExcept {ε α β : Type} (f : α → Except ε β) : List α → Except ε (List β)
  | [] => .ok []
  | a :: as => do
      let b ← f a
      let bs ← traverseExcept f as
      pure (b :: bs)

/-- Lines 50-57 of `routes/movies.py`: build `movies_data` as `MovieFull`
instances from the fetched rows, then have `MoviesListResponse` validate
that list against `List[MovieShort]`. -/
def serialize_listing (db : DB) (rows : List MovieRow) :
    Except ValErr (List MovieShort) := do
  let movies_data ← traverseExcept (MovieFull.ofRow db) rows
  traverseExcept MovieShort.ofMovieFull movies_data

/-- The row slice fetched by the listing query:
`order_by(id desc).offset((page - 1) * per_page).limit(per_page)`. -/
def page_slice (page per_page : Nat) (db : DB) : List MovieRow :=
  ((sortByIdDesc db.movies.rows).drop ((page - 1) * per_page)).take per_page

/-- `prev_page = f"..." if page > 1 else None` from `list_movies`: the link
string is interpolated onto the literal `base_url`. -/
def prev_page_link (page per_page : Nat) : Option String :=
  if page > 1 then
    some (base_url ++ "?page=" ++ toString (page - 1) ++ "&per_page=" ++
      toString per_page)
  else none

/-- `next_page = f"..." if page < total_pages else None` from
`list_movies`. -/
def next_page_link (page per_page total_pages : Nat) : Option String :=
  if page < total_pages then
    some (base_url ++ "?page=" ++ toString (page + 1) ++ "&per_page=" ++
      toString per_page)
  else none

/-- An error escaping the listing handler: a deliberate `HTTPException`, or
a pydantic `ValidationError` raised while the response is built (`main.py`
registers an exception handler turning the latter into a 400 response). -/
inductive ListErr
  | http (e : HErr)
  | validation (e : ValErr)
deriving DecidableEq, Repr

/-- The `GET /movies/` handler `list_movies` from `routes/movies.py`:
counts the catalog, raises 404 on an empty catalog, raises 404 when the
page exceeds `total_pages`, fetches the requested slice (ordered by
descending id), computes the prev/next links on the literal `base_url`,
and builds the `MoviesListResponse` — whose `movies` field re-validates
the `MovieFull` items against `MovieShort` (see `MovieShort.ofMovieFull`)
and therefore raises a `ValidationError` whenever the slice is
non-empty. -/
def list_movies (page per_page : Nat) (db : DB) :
    Except ListErr MoviesListResponse :=
  let total_items := db.movies.rows.length
  let total_pages := total_pages_of total_items per_page
  if total_items = 0 then
    .error (.http ⟨404, "No movies found."⟩)
  else if page > total_pages then
    .error (.http ⟨404, "No movies found on this page."⟩)
  else
    match serialize_listing db (page_slice page per_page db) with
    | .error e => .error (.validation e)
    | .ok shorts =>
        .ok { movies := shorts,
              prev_page := prev_page_link page per_page,
              next_page := next_page_link page per_page total_pages,
              total_pages := total_pages,
              total_items := total_items }

/-- The empty database (all tables empty, counters at 1). -/
def emptyDB : DB :=
  { movies := ⟨[], 1⟩, genres := ⟨[], 1⟩, actors := ⟨[], 1⟩,
    languages := ⟨[], 1⟩, countries := ⟨[], 1⟩,
    movies_genres := [], actors_movies := [], movies_languages := [] }

/-- A sample movie row used in concrete witnesses. -/
def sampleMovie (i : Nat) : MovieRow :=
  { id_ := i, name := "Movie" ++ toString i, date := 19000 + (i : Int),
    score := none, overview := none, status := .RELEASED,
    budget := none, revenue := none, country_id := none }

/-- A database holding three movies and nothing else. -/
def db3 : DB :=
  { emptyDB with movies := ⟨[sampleMovie 1, sampleMovie 2, sampleMovie 3], 4⟩ }

/-- "`s` begins with `p`": `s` is `p` followed by some remainder. -/
def stringBeginsWith (p s : String) : Prop := ∃ t, s = p ++ t

/-- `select(model).where(getattr(model, "name") == name)` within the active
session: the first row whose natural key matches.  Because `get_or_create`
flushes staged inserts, rows added earlier in the same operation are
visible here. -/
def TagTable.lookup (t : TagTable) (name : String) : Option TagRow :=
  t.rows.find? (fun r => decide (r.name = name))

/-- One iteration of the `get_or_create` loop inside `create_movie`
(`routes/movies.py`): look the name up; on a miss construct the row with
only the natural key populated, `db.add` it and `db.flush` it — the flush
makes it visible to every later lookup of the same operation. -/
def get_or_create_step (t : TagTable) (name : String) : TagRow × TagTable :=
  match t.lookup name with
  | some r => (r, t)
  | none =>
      let r : TagRow := ⟨t.nextId, name⟩
      (r, ⟨t.rows ++ [r], t.nextId + 1⟩)

/-- The inner helper `get_or_create(model, names)` of `create_movie`:
processes the names in order and returns the resolved rows in input order
together with the updated table. -/
def get_or_create (t : TagTable) : List String → List TagRow × TagTable
  | [] => ([], t)
  | n :: ns =>
      let p := get_or_create_step t n
      let q := get_or_create p.2 ns
      (p.1 :: q.1, q.2)

/-- Number of rows of a tag table carrying a given name. -/
def countNamed (g : String) (t : TagTable) : Nat :=
  t.rows.countP (fun r => decide (r.name = g))

/-- The country block of `create_movie` (`routes/movies.py`): a falsy
(empty) code yields no country; otherwise the code is looked up in
`countries` and, on a miss, a `CountryModel(code=..., name=None)` row is
added and flushed. -/
def reconcile_country (code : String) (t : CountryTable) :
    Option CountryRow × CountryTable :=
  if code = "" then (none, t)
  else
    match t.rows.find? (fun r => decide (r.code = code)) with
    | some c => (some c, t)
    | none =>
        let c : CountryRow := ⟨t.nextId, code, none⟩
        (some c, ⟨t.rows ++ [c], t.nextId + 1⟩)

/-- The validated `MovieCreate` pydantic model from `schemas/movies.py`.
It derives from `BaseModel` directly (not from `MovieBase`) and declares its
date field as `release_date` with no alias; `country`, `genres`, `actors`
and `languages` are declared without defaults, hence required. -/
structure MovieCreate where
  name : String
  release_date : Int
  score : Option ℚ
  overview : Option String
  status : MovieStatus
  budget : Option ℚ
  revenue : Option ℚ
  country : String
  genres : List String
  actors : List String
  languages : List String
deriving DecidableEq, Repr

/-- The field names declared on `MovieCreate`; `date` is not among them. -/
def MovieCreate.fieldNames : List String :=
  ["name", "release_date", "score", "overview", "status", "budget",
   "revenue", "country", "genres", "actors", "languages"]

/-- A Python exception raised inside a handler (FastAPI turns an uncaught
one into a 500 response). -/
inductive PyErr
  | attributeError (obj attr : String)
  | lookupError (val : String)
deriving DecidableEq, Repr

/-- What escapes a handler: a deliberate `HTTPException` or an uncaught
Python exception. -/
inductive ApiErr
  | http (e : HErr)
  | py (e : PyErr)
deriving DecidableEq, Repr

/-- Python attribute read `movie_data.<attr>` for the date-valued attribute
of a `MovieCreate` instance: it succeeds only when `attr` names the declared
date field `release_date`; any other name (in particular `date`) raises
`AttributeError`, since `MovieCreate` declares no such field and no alias. -/
def MovieCreate.getDateAttr (m : MovieCreate) (attr : String) : Except PyErr Int :=
  if attr = "release_date" then .ok m.release_date
  else .error (.attributeError "MovieCreate" attr)

/-- A raw JSON body for `POST /movies/`; `none` marks an absent key. -/
structure RawCreate where
  name : Option String
  release_date : Option Int
  score : Option ℚ
  overview : Option String
  status : Option String
  budget : Option ℚ
  revenue : Option ℚ
  country : Option String
  genres : Option (List String)
  actors : Option (List String)
  languages : Option (List String)
deriving DecidableEq, Repr

/-- A field with no default: absent means a `missing` validation error. -/
def require {α : Type} (field : String) : Option α → Except ValErr α
  | some a => .ok a
  | none => .error (.missing field)

/-- `Field(None, ge=0, le=100)` on an optional numeric field. -/
def checkRange (field : String) : Option ℚ → Except ValErr (Option ℚ)
  | none => .ok none
  | some q =>
      if 0 ≤ q ∧ q ≤ 100 then .ok (some q)
      else .error (.invalid field "Score must be between 0 and 100.")

/-- `Field(None, ge=0)` on an optional numeric field. -/
def checkNonNeg (field : String) : Option ℚ → Except ValErr (Option ℚ)
  | none => .ok none
  | some q =>
      if 0 ≤ q then .ok (some q)
      else .error (.invalid field "Budget and revenue must be non-negative.")

/-- Pydantic validation of a `POST /movies/` body against `MovieCreate`
(`schemas/movies.py`): the declared required fields must be present, the
numeric bounds must hold, `status` must be a schema-enum value, and the
`release_date` field validator rejects dates beyond `today + 365` days.
Fields are checked in declaration order and the first failure is
reported. -/
def MovieCreate.validate (today : Int) (raw : RawCreate) :
    Except ValErr MovieCreate := do
  let name ← require "name" raw.name
  if 255 < name.length then
    throw (.invalid "name" "String should have at most 255 characters")
  else
    let rd ← require "release_date" raw.release_date
    if today + 365 < rd then
      throw (.invalid "release_date"
        "Release date cannot be more than 1 year in the future.")
    else
      let score ← checkRange "score" raw.score
      let statusStr ← require "status" raw.status
      let status ← match MovieStatus.ofValue statusStr with
        | some st => pure st
        | none => throw (.invalid "status" "Input should be a valid enumeration member")
      let budget ← checkNonNeg "budget" raw.budget
      let revenue ← checkNonNeg "revenue" raw.revenue
      let country ← require "country" raw.country
      let genres ← require "genres" raw.genres
      let actors ← require "actors" raw.actors
      let languages ← require "languages" raw.languages
      pure { name := name, release_date := rd, score := score,
             overview := raw.overview, status := status, budget := budget,
             revenue := revenue, country := country, genres := genres,
             actors := actors, languages := languages }

/-- The `POST /movies/` handler `create_movie` from `routes/movies.py`,
statement by statement.  Its first statement builds the duplicate-check
query `select(MovieModel).where(MovieModel.name == movie_data.name,
MovieModel.date == movie_data.date)`: building the second condition reads
the attribute `date` of the `MovieCreate` instance.  (The 409 detail of the
source interpolates the name and date into the message; the literal text is
abbreviated here.)  The attribute `date` is also read for the one-year check
and for the `MovieModel(...)` constructor further down. -/
def create_movie (today : Int) (movie_data : MovieCreate) (db : DB) :
    Except ApiErr (MovieRow × DB) := do
  let qdate ← (movie_data.getDateAttr "date").mapError ApiErr.py
  if (db.movies.rows.find? (fun m =>
        decide (m.name = movie_data.name) && decide (m.date = qdate))).isSome then
    throw (.http ⟨409, "A movie with the given name and release date already exists."⟩)
  else
    let cdate ← (movie_data.getDateAttr "date").mapError ApiErr.py
    if today + 365 < cdate then
      throw (.http ⟨400, "Invalid input data."⟩)
    else
      let rc := reconcile_country movie_data.country db.countries
      let gp := get_or_create db.genres movie_data.genres
      let ap := get_or_create db.actors movie_data.actors
      let lp := get_or_create db.languages movie_data.languages
      let ndate ← (movie_data.getDateAttr "date").mapError ApiErr.py
      let st ← match MovieStatusEnum.ofValue movie_data.status.value with
        | some s => pure s
        | none => throw (.py (.lookupError movie_data.status.value))
      let row : MovieRow :=
        { id_ := db.movies.nextId, name := movie_data.name, date := ndate,
          score := movie_data.score, overview := movie_data.overview,
          status := st, budget := movie_data.budget,
          revenue := movie_data.revenue,
          country_id := rc.1.map CountryRow.id_ }
      let db' : DB :=
        { db with
          movies := ⟨db.movies.rows ++ [row], db.movies.nextId + 1⟩,
          countries := rc.2, genres := gp.2, actors := ap.2,
          languages := lp.2,
          movies_genres :=
            db.movies_genres ++ gp.1.map (fun g => ⟨row.id_, g.id_⟩),
          actors_movies :=
            db.actors_movies ++ ap.1.map (fun a => ⟨row.id_, a.id_⟩),
          movies_languages :=
            db.movies_languages ++ lp.1.map (fun l => ⟨row.id_, l.id_⟩) }
      pure (row, db')

/-- The `GET /movies/{movie_id}/` handler from `routes/movies.py`. -/
def get_movie (movie_id : Nat) (db : DB) : Except HErr MovieRow :=
  match db.movies.rows.find? (fun m => decide (m.id_ = movie_id)) with
  | none => .error ⟨404, "Movie with the given ID was not found."⟩
  | some m => .ok m

/-- The validated `MovieUpdate` pydantic model: every field optional. -/
structure MovieUpdate where
  name : Option String
  release_date : Option Int
  score : Option ℚ
  overview : Option String
  status : Option MovieStatus
  budget : Option ℚ
  revenue : Option ℚ
  country : Option String
  genres : Option (List String)
  actors : Option (List String)
  languages : Option (List String)
deriving DecidableEq, Repr

/-- The `PATCH /movies/{movie_id}/` handler `update_movie` from
`routes/movies.py`.  `update_data = data.model_dump(exclude_unset=True,
exclude_none=True)` keeps exactly the fields supplied with a non-null
value; the loop then pops `country`, `genres`, `actors` and `languages` out
of `update_data`, so association fields are never applied and neither the
junction tables nor `country_id` change.  Of the remaining
`setattr(movie, field, value)` calls only those whose key is a mapped
column of `MovieModel` change the row; the key `release_date` is not a
column of `MovieModel` (the column is named `date`), so a supplied release
date sets a plain Python attribute and the stored date is unchanged.
A supplied `status` binds the schema-enum value to the storage enum column,
which SQLAlchemy resolves by value (a `LookupError` when the value is not
among the storage enum's values). -/
def update_movie (movie_id : Nat) (data : MovieUpdate) (db : DB) :
    Except ApiErr (MovieRow × DB) := do
  match db.movies.rows.find? (fun m => decide (m.id_ = movie_id)) with
  | none => throw (.http ⟨404, "Movie with the given ID was not found."⟩)
  | some movie =>
    let st ← match data.status with
      | none => pure movie.status
      | some s =>
          match MovieStatusEnum.ofValue s.value with
          | some st => pure st
          | none => throw (.py (.lookupError s.value))
    let movie' : MovieRow :=
      { movie with
        name := data.name.getD movie.name,
        score := (data.score.map some).getD movie.score,
        overview := (data.overview.map some).getD movie.overview,
        status := st,
        budget := (data.budget.map some).getD movie.budget,
        revenue := (data.revenue.map some).getD movie.revenue }
    let db' : DB :=
      { db with
        movies := ⟨db.movies.rows.map
          (fun m => if m.id_ = movie_id then movie' else m), db.movies.nextId⟩ }
    pure (movie', db')

/-- The `DELETE /movies/{movie_id}/` handler from `routes/movies.py`:
404 when the id is absent; otherwise `db.delete(movie)` removes the movie
row and — through the relationship cascade over the three junction tables —
every junction row referencing it, then commits.  No genre, actor, language
or country row is touched. -/
def delete_movie (movie_id : Nat) (db : DB) : Except HErr DB :=
  match db.movies.rows.find? (fun m => decide (m.id_ = movie_id)) with
  | none => .error ⟨404, "Movie with the given ID was not found."⟩
  | some _ =>
      .ok { db with
        movies := ⟨db.movies.rows.filter
          (fun m => !decide (m.id_ = movie_id)), db.movies.nextId⟩,
        movies_genres :=
          db.movies_genres.filter (fun j => !decide (j.movie_id = movie_id)),
        actors_movies :=
          db.actors_movies.filter (fun j => !decide (j.movie_id = movie_id)),
        movies_languages :=
          db.movies_languages.filter (fun j => !decide (j.movie_id = movie_id)) }

/-- The names of a movie's genres, read through the junction table. -/
def movieGenreNames (db : DB) (movie_id : Nat) : List String :=
  (db.movies_genres.filter (fun j => decide (j.movie_id = movie_id))).filterMap
    (fun j => (db.genres.rows.find? (fun r => decide (r.id_ = j.genre_id))).map
      TagRow.name)

end Theater

namespace Theater

theorem data_append (s t : String) : (s ++ t).data = s.data ++ t.data := by
  cases s; cases t; rfl

theorem string_append_assoc (a b c : String) : a ++ b ++ c = a ++ (b ++ c) := by
  cases a with | mk x => cases b with | mk y => cases c with | mk z =>
  show String.mk (x ++ y ++ z) = String.mk (x ++ (y ++ z))
  rw [List.append_assoc]

theorem length_insertDescById (m : MovieRow) (l : List MovieRow) :
    (insertDescById m l).length = l.length + 1 := by
  induction l with
  | nil => rfl
  | cons x xs ih =>
    unfold insertDescById
    split
    · rfl
    · simp [ih]

theorem length_sortByIdDesc (l : List MovieRow) :
    (sortByIdDesc l).length = l.length := by
  induction l with
  | nil => rfl
  | cons x xs ih =>
    simp [sortByIdDesc, List.foldr] at ih ⊢
    rw [length_insertDescById, ih]

theorem total_pages_bounds (n per : Nat) (hper : 0 < per) (hn : 0 < n) :
    1 ≤ total_pages_of n per ∧
      n ≤ total_pages_of n per * per ∧
      (total_pages_of n per - 1) * per < n := by
  unfold total_pages_of
  rw [if_pos hn]
  set k := (n + per - 1) / per with hk
  have hk1 : 1 ≤ k := by
    rw [hk, Nat.le_div_iff_mul_le hper]
    omega
  have hupper : n + per - 1 < (k + 1) * per := by
    have hlt : (n + per - 1) / per < k + 1 := by omega
    rwa [Nat.div_lt_iff_lt_mul hper] at hlt
  have hexp1 : (k + 1) * per = k * per + per := by ring
  have hlower : k * per ≤ n + per - 1 := by
    have hle : k ≤ (n + per - 1) / per := by omega
    rwa [Nat.le_div_iff_mul_le hper] at hle
  have hexp2 : (k - 1) * per + per = k * per := by
    have h4 : k - 1 + 1 = k := by omega
    calc (k - 1) * per + per = (k - 1 + 1) * per := by ring
      _ = k * per := by rw [h4]
  refine ⟨hk1, ?_, ?_⟩ <;> omega

theorem total_pages_eq_ceil (n per : Nat) (hper : 0 < per) :
    total_pages_of n per = ⌈(n : ℚ) / (per : ℚ)⌉₊ := by
  rcases Nat.eq_zero_or_pos n with h0 | hn
  · subst h0
    simp [total_pages_of]
  · obtain ⟨h1, h2, h3⟩ := total_pages_bounds n per hper hn
    have hq : (0 : ℚ) < (per : ℚ) := by exact_mod_cast hper
    refine ((Nat.ceil_eq_iff ?_).mpr ⟨?_, ?_⟩).symm
    · omega
    · rw [lt_div_iff₀ hq]
      exact_mod_cast h3
    · rw [div_le_iff₀ hq]
      exact_mod_cast h2

theorem except_bind_ok {ε α β : Type} {x : Except ε α} {f : α → Except ε β}
    {b : β} (h : x >>= f = Except.ok b) :
    ∃ a, x = Except.ok a ∧ f a = Except.ok b := by
  cases x with
  | error e => simp [bind, Except.bind] at h
  | ok a =>
    refine ⟨a, rfl, ?_⟩
    simpa [bind, Except.bind] using h

theorem ofMovieFull_fails (m : MovieFull) :
    MovieShort.ofMovieFull m = Except.error (ValErr.missing "id_") := rfl

theorem traverse_short_cons_fails (f : MovieFull) (fs : List MovieFull) :
    traverseExcept MovieShort.ofMovieFull (f :: fs) =
      Except.error (ValErr.missing "id_") := rfl

theorem serialize_listing_nonempty_fails (db : DB) (m : MovieRow)
    (ms : List MovieRow) :
    ∃ e, serialize_listing db (m :: ms) = Except.error e := by
  unfold serialize_listing
  rcases h1 : traverseExcept (MovieFull.ofRow db) (m :: ms) with e | fulls
  · exact ⟨e, by simp [bind, Except.bind, h1]⟩
  · have hshape : ∃ f fs, fulls = f :: fs := by
      unfold traverseExcept at h1
      obtain ⟨b, hb, h1⟩ := except_bind_ok h1
      obtain ⟨bs, hbs, h1⟩ := except_bind_ok h1
      simp only [pure, Except.pure, Except.ok.injEq] at h1
      exact ⟨b, bs, h1.symm⟩
    obtain ⟨f, fs, rfl⟩ := hshape
    refine ⟨ValErr.missing "id_", ?_⟩
    simp [bind, Except.bind, h1, traverse_short_cons_fails]

theorem list_movies_in_range_fails (page per : Nat) (db : DB)
    (hper : 1 ≤ per) (hpage : 1 ≤ page)
    (hn : 0 < db.movies.rows.length)
    (hle : page ≤ total_pages_of db.movies.rows.length per) :
    ∃ e, list_movies page per db = Except.error (ListErr.validation e) := by
  obtain ⟨htp1, htp2, htp3⟩ :=
    total_pages_bounds db.movies.rows.length per hper hn
  have hmul : (page - 1) * per ≤
      (total_pages_of db.movies.rows.length per - 1) * per :=
    Nat.mul_le_mul_right per (by omega)
  have hofs : (page - 1) * per < db.movies.rows.length := by omega
  have hlen2 : 0 < (page_slice page per db).length := by
    simp only [page_slice, List.length_take, List.length_drop,
      length_sortByIdDesc]
    omega
  rcases hsl : page_slice page per db with _ | ⟨m, ms⟩
  · rw [hsl] at hlen2
    simp at hlen2
  · obtain ⟨e, he⟩ := serialize_listing_nonempty_fails db m ms
    refine ⟨e, ?_⟩
    simp only [list_movies]
    rw [if_neg (by omega), if_neg (by omega)]
    rw [hsl, he]

/-- C5: for every `per_page` in `[1, 20]` the handler's page count equals
`⌈total_items / per_page⌉`, and (when the catalog is non-empty) the slice it
fetches for the last page holds exactly the remaining
`total_items - (total_pages - 1) * per_page` rows — but the listing never
returns them: building the response fails with a `ValidationError` on every
non-empty page, so requesting the last page yields an error instead of the
remainder items. -/
theorem listing_ceil_and_last_page_never_returned (per n : Nat) (db : DB)
    (hper1 : 1 ≤ per) (hper20 : per ≤ 20) (hlen : db.movies.rows.length = n) :
    total_pages_of n per = ⌈(n : ℚ) / (per : ℚ)⌉₊ ∧
    (0 < n →
      (page_slice (total_pages_of n per) per db).length
          = n - (total_pages_of n per - 1) * per ∧
      ∃ e, list_movies (total_pages_of n per) per db =
        Except.error (ListErr.validation e)) := by
  have hper : 0 < per := hper1
  refine ⟨total_pages_eq_ceil n per hper, ?_⟩
  intro hn
  obtain ⟨htp1, htp2, htp3⟩ := total_pages_bounds n per hper hn
  have hexp : (total_pages_of n per - 1) * per + per
      = total_pages_of n per * per := by
    have h4 : total_pages_of n per - 1 + 1 = total_pages_of n per := by omega
    calc (total_pages_of n per - 1) * per + per
        = (total_pages_of n per - 1 + 1) * per := by ring
      _ = total_pages_of n per * per := by rw [h4]
  constructor
  · simp only [page_slice, List.length_take, List.length_drop,
      length_sortByIdDesc, hlen]
    omega
  · exact list_movies_in_range_fails (total_pages_of n per) per db hper htp1
      (by omega) (by rw [hlen])

/-- Witness for `listing_ceil_and_last_page_never_returned` at
`per_page = 2` on a three-movie catalog. -/
theorem listing_ceil_and_last_page_never_returned_witness :
    (1 ≤ 2 ∧ 2 ≤ 20 ∧ db3.movies.rows.length = 3) ∧
    (total_pages_of 3 2 = ⌈(3 : ℚ) / (2 : ℚ)⌉₊ ∧
      (0 < 3 →
        (page_slice (total_pages_of 3 2) 2 db3).length
            = 3 - (total_pages_of 3 2 - 1) * 2 ∧
        ∃ e, list_movies (total_pages_of 3 2) 2 db3 =
          Except.error (ListErr.validation e))) :=
  ⟨⟨by decide, by decide, rfl⟩,
    listing_ceil_and_last_page_never_returned 2 3 db3 (by decide) (by decide)
      rfl⟩

theorem base_append_ne_mounted (t u : String) :
    base_url ++ t ≠ mounted_listing_path ++ u := by
  intro h
  have h2 := congrArg (fun s => s.data.take 2) h
  have ha : (base_url ++ t).data = base_url.data ++ t.data := data_append _ _
  have hb : (mounted_listing_path ++ u).data = mounted_listing_path.data ++ u.data :=
    data_append _ _
  simp only [ha, hb] at h2
  simp [base_url, mounted_listing_path] at h2

/-- C10: the prev/next link strings `list_movies` computes are built on the
literal fixed path "/theater/movies/" and never on the
"/api/v1/theater/movies/" path under which `main.py` actually mounts the
endpoint; but the handler never emits them — every in-range listing of a
non-empty catalog fails with a `ValidationError` while serializing the
response, so no successful listing response exists to carry the links. -/
theorem listing_links_fixed_path_never_emitted (page per : Nat) (db : DB)
    (hpage : 1 ≤ page) (hper : 1 ≤ per)
    (hn : 0 < db.movies.rows.length)
    (hle : page ≤ total_pages_of db.movies.rows.length per) :
    (∀ s, prev_page_link page per = some s →
      stringBeginsWith base_url s ∧
        ¬ stringBeginsWith mounted_listing_path s) ∧
    (∀ s, next_page_link page per
        (total_pages_of db.movies.rows.length per) = some s →
      stringBeginsWith base_url s ∧
        ¬ stringBeginsWith mounted_listing_path s) ∧
    ∃ e, list_movies page per db = Except.error (ListErr.validation e) := by
  refine ⟨?_, ?_, list_movies_in_range_fails page per db hper hpage hn hle⟩
  · intro s hs
    simp only [prev_page_link] at hs
    split at hs
    · rw [Option.some.injEq] at hs
      subst hs
      refine ⟨⟨_, rfl⟩, ?_⟩
      rintro ⟨u, hu⟩
      simp only [string_append_assoc] at hu
      exact base_append_ne_mounted _ u hu
    · exact absurd hs (by simp)
  · intro s hs
    simp only [next_page_link] at hs
    split at hs
    · rw [Option.some.injEq] at hs
      subst hs
      refine ⟨⟨_, rfl⟩, ?_⟩
      rintro ⟨u, hu⟩
      simp only [string_append_assoc] at hu
      exact base_append_ne_mounted _ u hu
    · exact absurd hs (by simp)

/-- Witness for `listing_links_fixed_path_never_emitted` at page 2 of the
three-movie catalog with one movie per page: both link strings exist and
the listing itself fails during response serialization. -/
theorem listing_links_fixed_path_never_emitted_witness :
    (1 ≤ 2 ∧ 1 ≤ 1 ∧ 0 < db3.movies.rows.length ∧
      2 ≤ total_pages_of db3.movies.rows.length 1) ∧
    ((∀ s, prev_page_link 2 1 = some s →
      stringBeginsWith base_url s ∧
        ¬ stringBeginsWith mounted_listing_path s) ∧
    (∀ s, next_page_link 2 1 (total_pages_of db3.movies.rows.length 1) =
        some s →
      stringBeginsWith base_url s ∧
        ¬ stringBeginsWith mounted_listing_path s) ∧
    ∃ e, list_movies 2 1 db3 = Except.error (ListErr.validation e)) :=
  ⟨⟨by decide, by decide, by decide, by decide⟩,
    listing_links_fixed_path_never_emitted 2 1 db3 (by decide) (by decide)
      (by decide) (by decide)⟩

end Theater

namespace Theater

/-- C1 counterexample: on the empty catalog the listing endpoint does not
return an empty page — it raises `HTTPException(404, "No movies found.")`. -/
theorem list_movies_empty_is_error :
    list_movies 1 10 emptyDB =
      Except.error (ListErr.http ⟨404, "No movies found."⟩) := by
  rfl

/-- C1 (amended): for every listing request against a catalog with zero
movies, `list_movies` fails with a 404 NotFound ("No movies found.") instead
of returning an empty page. -/
theorem list_movies_empty_catalog_404 (page per_page : Nat) (db : DB)
    (h : db.movies.rows = []) :
    list_movies page per_page db =
      Except.error (ListErr.http ⟨404, "No movies found."⟩) := by
  simp [list_movies, h]

/-- Witness for `list_movies_empty_catalog_404` at a concrete input. -/
theorem list_movies_empty_catalog_404_witness :
    emptyDB.movies.rows = [] ∧
      list_movies 3 7 emptyDB =
        Except.error (ListErr.http ⟨404, "No movies found."⟩) :=
  ⟨rfl, list_movies_empty_catalog_404 3 7 emptyDB rfl⟩

/-- C4: when the catalog is non-empty and the requested page exceeds
`total_pages`, the listing fails with a 404 NotFound rather than returning a
page. -/
theorem list_movies_page_beyond_404 (page per_page : Nat) (db : DB)
    (hne : 0 < db.movies.rows.length)
    (hpage : total_pages_of db.movies.rows.length per_page < page) :
    list_movies page per_page db =
      Except.error (ListErr.http ⟨404, "No movies found on this page."⟩) := by
  unfold list_movies
  have h0 : ¬ db.movies.rows.length = 0 := by omega
  simp only [h0, if_false]
  simp [hpage]

end Theater

namespace Theater

/-- C3: `create_movie` reads `movie_data.date` while `MovieCreate` declares
only `release_date` (with no alias), so every create request — valid or not,
duplicate or not — raises `AttributeError` before anything is queried or
persisted; no create succeeds, hence no create-then-get round trip exists. -/
theorem create_movie_always_attribute_error (today : Int) (m : MovieCreate)
    (db : DB) :
    create_movie today m db =
      Except.error (ApiErr.py (PyErr.attributeError "MovieCreate" "date")) := by
  rfl

/-- `date` is not among the fields declared on `MovieCreate`, while the
date field actually declared, `release_date`, is. -/
theorem movie_create_has_no_date_field :
    "date" ∉ MovieCreate.fieldNames ∧ "release_date" ∈ MovieCreate.fieldNames := by
  decide

/-- C7: the status value "Post Production" is accepted at the interface but
is not representable in the storage enum (whose member carries the value
"Post PRODUCTION"), so the interface and storage value sets differ and a
value-based lookup of the schema value into the storage enum fails. -/
theorem status_value_sets_differ :
    "Post Production" ∈ MovieStatus.values ∧
    "Post Production" ∉ MovieStatusEnum.values ∧
    MovieStatus.values ≠ MovieStatusEnum.values ∧
    MovieStatusEnum.ofValue MovieStatus.post_production.value = none := by
  decide

/-- A database holding one movie associated to the single genre "Action". -/
def dbOneGenre : DB :=
  { emptyDB with
    movies := ⟨[sampleMovie 1], 2⟩,
    genres := ⟨[⟨1, "Action"⟩], 2⟩,
    movies_genres := [⟨1, 1⟩] }

/-- A partial update supplying only `genres = ["Drama"]`. -/
def updDrama : MovieUpdate :=
  ⟨none, none, none, none, none, none, none, none, some ["Drama"], none, none⟩

/-- C2 counterexample: updating movie 1 with the association field
`genres = ["Drama"]` present in the partial input succeeds but leaves the
movie's genre set at ["Action"] — the supplied association does not replace
the existing one. -/
theorem update_assoc_replacement_counterexample :
    updDrama.genres = some ["Drama"] ∧
    ∃ p, update_movie 1 updDrama dbOneGenre = Except.ok p ∧
      movieGenreNames p.2 1 = ["Action"] ∧ movieGenreNames p.2 1 ≠ ["Drama"] := by
  exact ⟨rfl, ⟨_, rfl, rfl, by decide⟩⟩

/-- C2 (amended): association fields supplied in a partial update are
dropped, not reconciled: whenever `update_movie` succeeds, the three
junction tables, the four tag/country tables and the updated movie's
`country_id` are all exactly as before, whatever the input contained. -/
theorem update_ignores_association_fields (movie_id : Nat) (data : MovieUpdate)
    (db : DB) (p : MovieRow × DB)
    (h : update_movie movie_id data db = Except.ok p) :
    p.2.movies_genres = db.movies_genres ∧
    p.2.actors_movies = db.actors_movies ∧
    p.2.movies_languages = db.movies_languages ∧
    p.2.genres = db.genres ∧ p.2.actors = db.actors ∧
    p.2.languages = db.languages ∧ p.2.countries = db.countries ∧
    ∃ movie, db.movies.rows.find? (fun m => decide (m.id_ = movie_id)) = some movie ∧
      p.1.country_id = movie.country_id ∧ p.1.date = movie.date := by
  simp only [update_movie] at h
  split at h
  · simp [throw, throwThe, MonadExceptOf.throw] at h
  · rename_i movie hfind
    rcases hs : data.status with _ | s
    · simp only [hs, pure, bind, Except.bind, Except.pure] at h
      rw [Except.ok.injEq] at h
      subst h
      exact ⟨rfl, rfl, rfl, rfl, rfl, rfl, rfl, movie, hfind, rfl, rfl⟩
    · rcases hv : MovieStatusEnum.ofValue s.value with _ | st
      · simp [hs, hv, throw, throwThe, MonadExceptOf.throw, bind, Except.bind] at h
      · simp only [hs, hv, pure, bind, Except.bind, Except.pure] at h
        rw [Except.ok.injEq] at h
        subst h
        exact ⟨rfl, rfl, rfl, rfl, rfl, rfl, rfl, movie, hfind, rfl, rfl⟩

/-- A partial update supplying only a new name. -/
def updName : MovieUpdate :=
  ⟨some "Renamed", none, none, none, none, none, none, none, none, none, none⟩

/-- The pair returned by `update_movie 1 updName dbOneGenre`. -/
def updNamePair : MovieRow × DB :=
  ({ sampleMovie 1 with name := "Renamed" },
    { dbOneGenre with movies := ⟨[{ sampleMovie 1 with name := "Renamed" }], 2⟩ })

/-- Witness for `update_ignores_association_fields` at a concrete
successful update. -/
theorem update_ignores_association_fields_witness :
    (update_movie 1 updName dbOneGenre = Except.ok updNamePair) ∧
    (updNamePair.2.movies_genres = dbOneGenre.movies_genres ∧
     updNamePair.2.actors_movies = dbOneGenre.actors_movies ∧
     updNamePair.2.movies_languages = dbOneGenre.movies_languages ∧
     updNamePair.2.genres = dbOneGenre.genres ∧
     updNamePair.2.actors = dbOneGenre.actors ∧
     updNamePair.2.languages = dbOneGenre.languages ∧
     updNamePair.2.countries = dbOneGenre.countries ∧
     ∃ movie, dbOneGenre.movies.rows.find? (fun m => decide (m.id_ = 1)) = some movie ∧
       updNamePair.1.country_id = movie.country_id ∧
       updNamePair.1.date = movie.date) :=
  ⟨rfl, update_ignores_association_fields 1 updName dbOneGenre updNamePair rfl⟩

end Theater

namespace Theater

theorem lookup_eq_none_iff (t : TagTable) (n : String) :
    t.lookup n = none ↔ countNamed n t = 0 := by
  simp [TagTable.lookup, countNamed, List.find?_eq_none, List.countP_eq_zero]

theorem step_mem (t : TagTable) (n : String) (r : TagRow) (h : r ∈ t.rows) :
    r ∈ (get_or_create_step t n).2.rows := by
  rcases hl : t.lookup n with _ | r' <;> simp [get_or_create_step, hl, h]

theorem step_returned_mem (t : TagTable) (n : String) :
    (get_or_create_step t n).1 ∈ (get_or_create_step t n).2.rows := by
  rcases hl : t.lookup n with _ | r
  · simp [get_or_create_step, hl]
  · simp only [get_or_create_step, hl]
    exact List.mem_of_find?_eq_some hl

theorem step_returned_name (t : TagTable) (n : String) :
    (get_or_create_step t n).1.name = n := by
  rcases hl : t.lookup n with _ | r
  · simp [get_or_create_step, hl]
  · simp only [get_or_create_step, hl]
    have := List.find?_some hl
    simpa using this

theorem step_count_le_one (t : TagTable) (n g : String)
    (h : countNamed g t ≤ 1) : countNamed g (get_or_create_step t n).2 ≤ 1 := by
  rcases hl : t.lookup n with _ | r
  · have h0 : countNamed n t = 0 := (lookup_eq_none_iff t n).mp hl
    simp only [get_or_create_step, hl, countNamed, List.countP_append] at h ⊢
    by_cases hg : n = g
    · subst hg
      simp only [countNamed] at h0
      simp [h0]
    · simp [hg]
      simpa [countNamed] using h
  · simpa [get_or_create_step, hl] using h

theorem step_count_mono (t : TagTable) (n g : String) :
    countNamed g t ≤ countNamed g (get_or_create_step t n).2 := by
  rcases hl : t.lookup n with _ | r
  · simp only [get_or_create_step, hl, countNamed, List.countP_append]
    omega
  · simp [get_or_create_step, hl]

theorem step_count_pos (t : TagTable) (n : String) :
    1 ≤ countNamed n (get_or_create_step t n).2 := by
  rcases hl : t.lookup n with _ | r
  · simp [get_or_create_step, hl, countNamed, List.countP_append]
  · have hr := List.find?_some hl
    have hmem := List.mem_of_find?_eq_some hl
    simp only [get_or_create_step, hl, countNamed]
    have : 0 < t.rows.countP (fun r => decide (r.name = n)) :=
      List.countP_pos_iff.mpr ⟨r, hmem, hr⟩
    omega

theorem goc_mem (t : TagTable) (ns : List String) (r : TagRow)
    (h : r ∈ t.rows) : r ∈ (get_or_create t ns).2.rows := by
  induction ns generalizing t with
  | nil => exact h
  | cons n ns ih =>
    simp only [get_or_create]
    exact ih _ (step_mem t n r h)

theorem goc_returned_mem (t : TagTable) (ns : List String) (r : TagRow)
    (h : r ∈ (get_or_create t ns).1) : r ∈ (get_or_create t ns).2.rows := by
  induction ns generalizing t with
  | nil => simp [get_or_create] at h
  | cons n ns ih =>
    simp only [get_or_create] at h ⊢
    rcases List.mem_cons.mp h with h1 | h2
    · rw [h1]
      exact goc_mem _ ns _ (step_returned_mem t n)
    · exact ih _ h2

theorem goc_count_le_one (t : TagTable) (ns : List String) (g : String)
    (h : countNamed g t ≤ 1) : countNamed g (get_or_create t ns).2 ≤ 1 := by
  induction ns generalizing t with
  | nil => exact h
  | cons n ns ih =>
    simp only [get_or_create]
    exact ih _ (step_count_le_one t n g h)

theorem goc_count_mono (t : TagTable) (ns : List String) (g : String) :
    countNamed g t ≤ countNamed g (get_or_create t ns).2 := by
  induction ns generalizing t with
  | nil => exact le_rfl
  | cons n ns ih =>
    simp only [get_or_create]
    exact le_trans (step_count_mono t n g) (ih _)

theorem goc_count_pos (t : TagTable) (ns : List String) (g : String)
    (h : g ∈ ns) : 1 ≤ countNamed g (get_or_create t ns).2 := by
  induction ns generalizing t with
  | nil => cases h
  | cons n ns ih =>
    simp only [get_or_create]
    rcases List.mem_cons.mp h with h1 | h2
    · subst h1
      exact le_trans (step_count_pos t g) (goc_count_mono _ ns g)
    · exact ih _ h2

theorem goc_exists_named (t : TagTable) (ns : List String) (g : String)
    (h : g ∈ ns) : ∃ r, r ∈ (get_or_create t ns).1 ∧ r.name = g := by
  induction ns generalizing t with
  | nil => cases h
  | cons n ns ih =>
    rcases List.mem_cons.mp h with h1 | h2
    · subst h1
      exact ⟨(get_or_create_step t g).1, by simp [get_or_create],
        step_returned_name t g⟩
    · obtain ⟨r, hr1, hr2⟩ := ih (get_or_create_step t n).2 h2
      exact ⟨r, by simp [get_or_create, hr1], hr2⟩

theorem uniq_named (t : TagTable) (g : String) (h : countNamed g t ≤ 1)
    (r1 r2 : TagRow) (h1 : r1 ∈ t.rows) (h2 : r2 ∈ t.rows)
    (hn1 : r1.name = g) (hn2 : r2.name = g) : r1 = r2 := by
  by_contra hne
  have hf1 : r1 ∈ t.rows.filter (fun r => decide (r.name = g)) :=
    List.mem_filter.mpr ⟨h1, by simp [hn1]⟩
  have hf2 : r2 ∈ t.rows.filter (fun r => decide (r.name = g)) :=
    List.mem_filter.mpr ⟨h2, by simp [hn2]⟩
  have hm : r1 ∈ (t.rows.filter (fun r => decide (r.name = g))).erase r2 :=
    (List.mem_erase_of_ne hne).mpr hf1
  have hp : 0 < ((t.rows.filter (fun r => decide (r.name = g))).erase r2).length :=
    List.length_pos.mpr (List.ne_nil_of_mem hm)
  have hl2 := List.length_erase_of_mem hf2
  rw [countNamed, List.countP_eq_length_filter] at h
  omega

/-- C6: against any tag table satisfying the unique-name constraint, running
the `get_or_create` reconciliation for two successive creates whose inputs
both mention a name `g` (possibly repeatedly within one input, since every
staged row is flushed and visible to later lookups of the same operation)
leaves exactly one row named `g`, and one single row is returned — hence
referenced — by both operations. -/
theorem shared_tag_name_single_row (s : TagTable) (names1 names2 : List String)
    (g : String) (hU : ∀ x, countNamed x s ≤ 1)
    (h1 : g ∈ names1) (h2 : g ∈ names2) :
    countNamed g (get_or_create (get_or_create s names1).2 names2).2 = 1 ∧
    ∃ r, r.name = g ∧ r ∈ (get_or_create s names1).1 ∧
      r ∈ (get_or_create (get_or_create s names1).2 names2).1 ∧
      r ∈ (get_or_create (get_or_create s names1).2 names2).2.rows := by
  have hle1 : ∀ x, countNamed x (get_or_create s names1).2 ≤ 1 :=
    fun x => goc_count_le_one s names1 x (hU x)
  have hle2 : ∀ x,
      countNamed x (get_or_create (get_or_create s names1).2 names2).2 ≤ 1 :=
    fun x => goc_count_le_one _ names2 x (hle1 x)
  have hpos1 : 1 ≤ countNamed g (get_or_create s names1).2 :=
    goc_count_pos s names1 g h1
  have hpos2 :=
    le_trans hpos1 (goc_count_mono (get_or_create s names1).2 names2 g)
  have hcount := le_antisymm (hle2 g) hpos2
  obtain ⟨r1, hr1l, hr1n⟩ := goc_exists_named s names1 g h1
  obtain ⟨r2, hr2l, hr2n⟩ := goc_exists_named _ names2 g h2
  have hr1rows : r1 ∈ (get_or_create s names1).2.rows :=
    goc_returned_mem _ _ _ hr1l
  have hr1rows2 : r1 ∈ (get_or_create (get_or_create s names1).2 names2).2.rows :=
    goc_mem _ _ _ hr1rows
  have hr2rows2 : r2 ∈ (get_or_create (get_or_create s names1).2 names2).2.rows :=
    goc_returned_mem _ _ _ hr2l
  have heq : r2 = r1 :=
    uniq_named _ g (hle2 g) r2 r1 hr2rows2 hr1rows2 hr2n hr1n
  exact ⟨hcount, r1, hr1n, hr1l, heq ▸ hr2l, hr1rows2⟩

/-- Witness for `shared_tag_name_single_row`: an empty genre table, a first
create mentioning "Drama" twice in one request and a second create
mentioning it again. -/
theorem shared_tag_name_single_row_witness :
    ((∀ x, countNamed x ⟨[], 1⟩ ≤ 1) ∧ "Drama" ∈ ["Drama", "Drama"] ∧
      "Drama" ∈ ["Drama", "Action"]) ∧
    (countNamed "Drama"
        (get_or_create (get_or_create ⟨[], 1⟩ ["Drama", "Drama"]).2
          ["Drama", "Action"]).2 = 1 ∧
      ∃ r, r.name = "Drama" ∧
        r ∈ (get_or_create ⟨[], 1⟩ ["Drama", "Drama"]).1 ∧
        r ∈ (get_or_create (get_or_create ⟨[], 1⟩ ["Drama", "Drama"]).2
          ["Drama", "Action"]).1 ∧
        r ∈ (get_or_create (get_or_create ⟨[], 1⟩ ["Drama", "Drama"]).2
          ["Drama", "Action"]).2.rows) :=
  ⟨⟨fun x => by simp [countNamed], by decide, by decide⟩,
    shared_tag_name_single_row ⟨[], 1⟩ ["Drama", "Drama"] ["Drama", "Action"]
      "Drama" (fun x => by simp [countNamed]) (by decide) (by decide)⟩

end Theater

namespace Theater

theorem require_ok {α : Type} {f : String} {o : Option α} {a : α}
    (h : require f o = Except.ok a) : o = some a := by
  cases o with
  | none => simp [require] at h
  | some x =>
    simp only [require, Except.ok.injEq] at h
    rw [h]

/-- C8 (amended): the `country` field of a create request is required by the
schema (validation succeeds only when it is supplied, and carries it into
the model), and the country block of `create_movie` resolves it to at most
one reference: an empty string yields no country and a non-empty code
yields a single `Country` reference bearing that code. -/
theorem country_required_single_optional (today : Int) (raw : RawCreate)
    (mc : MovieCreate) (t : CountryTable) (code : String)
    (hok : MovieCreate.validate today raw = Except.ok mc) (hcode : code ≠ "") :
    raw.country = some mc.country ∧
    reconcile_country "" t = (none, t) ∧
    ∃ c, (reconcile_country code t).1 = some c ∧ c.code = code := by
  refine ⟨?_, by simp [reconcile_country], ?_⟩
  · simp only [MovieCreate.validate] at hok
    obtain ⟨name, hname, hok⟩ := except_bind_ok hok
    split at hok
    · simp [throw, throwThe, MonadExceptOf.throw] at hok
    · obtain ⟨rd, hrd, hok⟩ := except_bind_ok hok
      split at hok
      · simp [throw, throwThe, MonadExceptOf.throw] at hok
      · obtain ⟨score, hscore, hok⟩ := except_bind_ok hok
        obtain ⟨statusStr, hst, hok⟩ := except_bind_ok hok
        split at hok
        · obtain ⟨status, hstv, hok⟩ := except_bind_ok hok
          obtain ⟨budget, hb, hok⟩ := except_bind_ok hok
          obtain ⟨revenue, hr, hok⟩ := except_bind_ok hok
          obtain ⟨country, hc, hok⟩ := except_bind_ok hok
          obtain ⟨genres, hg, hok⟩ := except_bind_ok hok
          obtain ⟨actors, ha, hok⟩ := except_bind_ok hok
          obtain ⟨languages, hl, hok⟩ := except_bind_ok hok
          simp only [pure, Except.pure, Except.ok.injEq] at hok
          have hcountry := require_ok hc
          rw [hcountry, ← hok]
        · obtain ⟨u, hu, hok⟩ := except_bind_ok hok
          simp [throw, throwThe, MonadExceptOf.throw] at hu
  · unfold reconcile_country
    rw [if_neg hcode]
    rcases hf : t.rows.find? (fun r => decide (r.code = code)) with _ | c
    · simp only [hf]
      exact ⟨_, rfl, rfl⟩
    · simp only [hf]
      refine ⟨c, rfl, ?_⟩
      have := List.find?_some hf
      simpa using this

/-- A create body that is valid except that it supplies no `country` key. -/
def rawNoCountry : RawCreate :=
  { name := some "Inception", release_date := some 18458, score := some 86,
    overview := some "A mind-bending thriller.", status := some "Released",
    budget := some 160000000, revenue := some 825500000, country := none,
    genres := some ["Action"], actors := some ["Leonardo DiCaprio"],
    languages := some ["English"] }

/-- C8 counterexample: a create request that supplies no country is not
accepted — `MovieCreate` declares `country: str` with no default, so
validation rejects the body with a missing-field error instead of producing
a movie with no country. -/
theorem create_without_country_rejected :
    MovieCreate.validate 20000 rawNoCountry =
      Except.error (ValErr.missing "country") := by
  rfl

/-- The same body with `country = "US"` supplied. -/
def rawFull : RawCreate := { rawNoCountry with country := some "US" }

/-- The validated model for `rawFull`. -/
def mcFull : MovieCreate :=
  { name := "Inception", release_date := 18458, score := some 86,
    overview := some "A mind-bending thriller.", status := .released,
    budget := some 160000000, revenue := some 825500000, country := "US",
    genres := ["Action"], actors := ["Leonardo DiCaprio"],
    languages := ["English"] }

/-- Witness for `country_required_single_optional` at a concrete validated
body and the country code "US" against an empty countries table. -/
theorem country_required_single_optional_witness :
    (MovieCreate.validate 20000 rawFull = Except.ok mcFull ∧ "US" ≠ "") ∧
    (rawFull.country = some mcFull.country ∧
      reconcile_country "" (⟨[], 1⟩ : CountryTable) = (none, ⟨[], 1⟩) ∧
      ∃ c, (reconcile_country "US" (⟨[], 1⟩ : CountryTable)).1 = some c ∧
        c.code = "US") :=
  ⟨⟨by rfl, by decide⟩,
    country_required_single_optional 20000 rawFull mcFull ⟨[], 1⟩ "US"
      (by rfl) (by decide)⟩

/-- C9: deleting an existing movie succeeds, removes exactly the movie row
and every junction row referencing it, and leaves the genre, actor,
language and country tables untouched — so tag rows shared with other
movies survive and stay queryable, as do the junction rows of the other
movies. -/
theorem delete_movie_frame (movie_id : Nat) (db : DB)
    (h : ∃ m ∈ db.movies.rows, m.id_ = movie_id) :
    ∃ db', delete_movie movie_id db = Except.ok db' ∧
      db'.genres = db.genres ∧ db'.actors = db.actors ∧
      db'.languages = db.languages ∧ db'.countries = db.countries ∧
      (∀ m : MovieRow, m ∈ db'.movies.rows ↔
        m ∈ db.movies.rows ∧ m.id_ ≠ movie_id) ∧
      (∀ j : MovieGenreRow, j ∈ db'.movies_genres ↔
        j ∈ db.movies_genres ∧ j.movie_id ≠ movie_id) ∧
      (∀ j : ActorMovieRow, j ∈ db'.actors_movies ↔
        j ∈ db.actors_movies ∧ j.movie_id ≠ movie_id) ∧
      (∀ j : MovieLanguageRow, j ∈ db'.movies_languages ↔
        j ∈ db.movies_languages ∧ j.movie_id ≠ movie_id) := by
  obtain ⟨m0, hm0, hid⟩ := h
  rcases hf : db.movies.rows.find? (fun m => decide (m.id_ = movie_id)) with _ | m
  · rw [List.find?_eq_none] at hf
    exact absurd hid (by simpa using hf m0 hm0)
  · have hdel : delete_movie movie_id db = Except.ok
        { db with
          movies := ⟨db.movies.rows.filter
            (fun m => !decide (m.id_ = movie_id)), db.movies.nextId⟩,
          movies_genres :=
            db.movies_genres.filter (fun j => !decide (j.movie_id = movie_id)),
          actors_movies :=
            db.actors_movies.filter (fun j => !decide (j.movie_id = movie_id)),
          movies_languages :=
            db.movies_languages.filter
              (fun j => !decide (j.movie_id = movie_id)) } := by
      simp [delete_movie, hf]
    refine ⟨_, hdel, rfl, rfl, rfl, rfl, ?_, ?_, ?_, ?_⟩ <;>
      intro x <;> simp [List.mem_filter]

/-- Two movies sharing one actor row through the junction table. -/
def dbShared : DB :=
  { emptyDB with
    movies := ⟨[sampleMovie 1, sampleMovie 2], 3⟩,
    actors := ⟨[⟨1, "Shared Actor"⟩], 2⟩,
    actors_movies := [⟨1, 1⟩, ⟨2, 1⟩] }

/-- Witness for `delete_movie_frame`: deleting movie 1 of `dbShared`. -/
theorem delete_movie_frame_witness :
    (∃ m ∈ dbShared.movies.rows, m.id_ = 1) ∧
    (∃ db', delete_movie 1 dbShared = Except.ok db' ∧
      db'.genres = dbShared.genres ∧ db'.actors = dbShared.actors ∧
      db'.languages = dbShared.languages ∧ db'.countries = dbShared.countries ∧
      (∀ m : MovieRow, m ∈ db'.movies.rows ↔
        m ∈ dbShared.movies.rows ∧ m.id_ ≠ 1) ∧
      (∀ j : MovieGenreRow, j ∈ db'.movies_genres ↔
        j ∈ dbShared.movies_genres ∧ j.movie_id ≠ 1) ∧
      (∀ j : ActorMovieRow, j ∈ db'.actors_movies ↔
        j ∈ dbShared.actors_movies ∧ j.movie_id ≠ 1) ∧
      (∀ j : MovieLanguageRow, j ∈ db'.movies_languages ↔
        j ∈ dbShared.movies_languages ∧ j.movie_id ≠ 1)) :=
  ⟨⟨sampleMovie 1, List.mem_cons_self _ _, rfl⟩,
    delete_movie_frame 1 dbShared ⟨sampleMovie 1, List.mem_cons_self _ _, rfl⟩⟩

/-- Witness for `list_movies_page_beyond_404`: page 2 of a three-movie
catalog listed at 10 per page (one total page). -/
theorem list_movies_page_beyond_404_witness :
    (0 < db3.movies.rows.length ∧
      total_pages_of db3.movies.rows.length 10 < 2) ∧
    list_movies 2 10 db3 =
      Except.error (ListErr.http ⟨404, "No movies found on this page."⟩) :=
  ⟨⟨by decide, by decide⟩,
    list_movies_page_beyond_404 2 10 db3 (by decide) (by decide)⟩

end Theater
